import Mathlib

/-
Verification of the Windows-Time-Checker utility (src/main.py) against its
natural-language specification.

The development shallowly embeds the Python source: configuration values are
modelled as YAML scalars (strings or integers), every external effect
(subprocess calls, file creation and deletion, sleeps, toast notifications,
the single network probe) is recorded as an event in an explicit trace, and
the outcome of each external command is supplied by an environment record.
Python exceptions are modelled with Except / an explicit control type; an
uncaught exception escaping main is the `some` case of the run's fault field.
-/

namespace TimeChecker

/-- Scalar configuration value as produced by yaml.safe_load for this
program: either a string or an integer. -/
inductive ConfigVal
  | s (v : String)
  | i (v : Int)
  deriving DecidableEq

/-- A configuration mapping (Python dict with string keys, modelled as an
association list with distinct keys). -/
abbrev Config := List (String × ConfigVal)

/-- Dict lookup, first match. -/
def lookupCfg : Config → String → Option ConfigVal
  | [], _ => none
  | (k, v) :: rest, key => if k == key then some v else lookupCfg rest key

/-- Embeds get_config_var: returns cfg[part] when present, else the default
(an absent/empty mapping also yields the default). -/
def get_config_var (cfg : Config) (part : String) (dflt : ConfigVal) : ConfigVal :=
  match lookupCfg cfg part with
  | none => dflt
  | some v => v

/-- Python str() on a scalar. -/
def pyStr : ConfigVal → String
  | .s v => v
  | .i v => toString v

/-- ASCII lowercase of one character (what str.lower() does on the ASCII
option strings used here). -/
def lowerChar (c : Char) : Char :=
  if 65 ≤ c.toNat ∧ c.toNat ≤ 90 then Char.ofNat (c.toNat + 32) else c

/-- Python str.lower() on the ASCII strings used here. -/
def pyLower (s : String) : String :=
  String.mk (s.toList.map lowerChar)

/-- Python .lower() called directly on a scalar: succeeds on strings and
raises AttributeError on integers (as at the Use_excternal_path check). -/
def pyLowerVal : ConfigVal → Except String String
  | .s v => .ok (pyLower v)
  | .i _ => .error "AttributeError: int object has no attribute lower"

/-- Auxiliary decimal-digit accumulator for pyInt. -/
def parseDigitsAux : List Char → Nat → Option Nat
  | [], acc => some acc
  | c :: cs, acc =>
    if c.isDigit then parseDigitsAux cs (acc * 10 + (c.toNat - 48)) else none

/-- Whitespace trim on a character list (int() ignores surrounding
whitespace). -/
def trimChars (cs : List Char) : List Char :=
  ((cs.dropWhile Char.isWhitespace).reverse.dropWhile Char.isWhitespace).reverse

/-- Plain decimal integer parse of a string (optional sign, digits), the
subset of Python int() relevant here; exotic forms are rejected like any
other non-numeric string. -/
def parseIntStr (str : String) : Option Int :=
  match trimChars str.toList with
  | [] => none
  | '-' :: rest =>
    match rest with
    | [] => none
    | _ => (parseDigitsAux rest 0).map (fun n => -(n : Int))
  | '+' :: rest =>
    match rest with
    | [] => none
    | _ => (parseDigitsAux rest 0).map (fun n => (n : Int))
  | cs => (parseDigitsAux cs 0).map (fun n => (n : Int))

/-- Python int() on a scalar: identity on integers, decimal parse on strings,
ValueError (modelled as Except.error) when the string is not numeric. -/
def pyInt : ConfigVal → Except String Int
  | .i v => .ok v
  | .s v =>
    match parseIntStr v with
    | some n => .ok n
    | none => .error ("ValueError: invalid literal for int: " ++ v)

/-- Python falsiness of a scalar (empty string or zero), as used by
`if not path`. -/
def pyFalsy : ConfigVal → Bool
  | .s v => v == ""
  | .i v => v == 0

/-- The truthiness test `in ("yes", "true", "1")` applied throughout main.py
to already-lowercased strings. -/
def yesSet (s : String) : Bool :=
  s == "yes" || s == "true" || s == "1"

/-- Character-list prefix test (helper for substring containment). -/
def listPre : List Char → List Char → Bool
  | [], _ => true
  | _ :: _, [] => false
  | a :: as, b :: bs => a == b && listPre as bs

/-- Character-list substring test (helper for hasSubstr). -/
def listSub (pat : List Char) : List Char → Bool
  | [] => listPre pat []
  | b :: bs => listPre pat (b :: bs) || listSub pat bs

/-- Python `pat in s` substring containment on strings. -/
def hasSubstr (s pat : String) : Bool :=
  listSub pat.toList s.toList

example : hasSubstr "SERVICE STATE RUNNING" "RUNNING" = true := by decide
example : hasSubstr "STOPPED" "RUNNING" = false := by decide
example : pyInt (.s " 42 ") = .ok 42 := rfl
example : pyInt (.s "-7") = .ok (-7) := rfl
example : (pyInt (.s "abc")).isOk = false := rfl

/-! ## Config provider (load_config) -/

/-- State of the config.yaml file as seen by load_config: missing,
unreadable/unparsable/non-mapping content, or a parsed mapping. -/
inductive FileState
  | missing
  | invalid
  | mapping (cfg : Config)
  deriving DecidableEq

/-- The default dict literal of load_config, verbatim from the source:
note the stray colon inside the first key string. -/
def defaultConfig : Config :=
  [("Use_excternal_path:", .s "No"),
   ("Path", .s ""),
   ("lauch_when_device_start", .s "No"),
   ("check_interval", .i 1000),
   ("max_check_times", .i 3),
   ("use_notification", .s "Yes")]

/-- Embeds load_config: a readable mapping is returned as-is; a missing or
malformed file yields the default dict, after attempting (best-effort,
exceptions swallowed) to write the default back to the file. Returns the
resulting mapping together with the file state after the call. -/
def load_config (fs : FileState) (writeOk : Bool) : Config × FileState :=
  match fs with
  | .mapping cfg => (cfg, fs)
  | other => (defaultConfig, if writeOk then .mapping defaultConfig else other)

/-! ## Task registrar (schtasks interaction) -/

/-- Environment for one registrar call: outcomes of the involved OS commands
and file operations. `tmpCreate 0` is the temporary file used inside
_build_task_xml, `tmpCreate 1` the one written in create_schtask. -/
structure SchedEnv where
  queryRc : Int
  queryRaises : Bool
  buildWriteOk : Bool
  buildReadOk : Bool
  buildUnlinkOk : Bool
  xmlWriteOk : Bool
  xmlUnlinkOk : Bool
  xmlCreateRc : Int
  trCreateRc : Int
  deleteRc : Int
  deriving DecidableEq

/-- Observable registrar actions. -/
inductive SEvent
  | queryTask
  | tmpCreate (idx : Nat)
  | createXmlCmd
  | createTrCmd
  | deleteCmd
  deriving DecidableEq

/-- Result of a registrar call: the (ok, message) pair, the actions taken,
and the temporary descriptor files still existing on disk at return. -/
structure SchedResult where
  ok : Bool
  msg : String
  events : List SEvent
  files : List Nat
  deriving DecidableEq

/-- Message of a CalledProcessError from subprocess.run(check=True). -/
def cpeMsg (cmdName : String) (rc : Int) : String :=
  "Command " ++ cmdName ++ " returned non-zero exit status " ++ toString rc

def xmlOkMsg : String := "Created from generated XML"

def trOkMsg (e : String) : String :=
  "Created by /TR fallback (xml error: " ++ e ++ ")"

def bothFailMsg (e e2 : String) : String :=
  "both methods failed: " ++ e ++ " / " ++ e2

/-- Embeds the file lifecycle of _build_task_xml: a NamedTemporaryFile with
delete=False is created and the XML tree is written into it; on write
failure the exception propagates with the file left behind (the unlink sits
in a try/finally entered only after the with-block). Otherwise the file is
read back and unlinked in `finally`, the unlink errors being swallowed
(an unlink failure also leaves the file behind). -/
def build_task_xml (env : SchedEnv) : Except String Unit × List SEvent × List Nat :=
  if env.buildWriteOk then
    if env.buildReadOk then
      (Except.ok (), [SEvent.tmpCreate 0], if env.buildUnlinkOk then [] else [0])
    else
      (Except.error "xml read failed", [SEvent.tmpCreate 0],
        if env.buildUnlinkOk then [] else [0])
  else
    (Except.error "xml tree write failed", [SEvent.tmpCreate 0], [0])

/-- Embeds create_schtask: build the XML descriptor, write it to a second
temporary file, submit via schtasks /Create /XML (check=True); a
CalledProcessError from that command -- and only that exception class --
triggers the /SC ONLOGON /TR fallback; any other exception (descriptor
synthesis or temp-file write failure) is reported directly as (False, str e).
The temp file of a failed write is not cleaned up; after a completed write,
unlink is attempted in `finally` on every path. -/
def create_schtask (env : SchedEnv) : SchedResult :=
  match build_task_xml env with
  | (Except.error e, evs, fs) => { ok := false, msg := e, events := evs, files := fs }
  | (Except.ok _, evs, fs) =>
    if env.xmlWriteOk then
      if env.xmlCreateRc = 0 then
        { ok := true, msg := xmlOkMsg
          events := evs ++ [SEvent.tmpCreate 1, SEvent.createXmlCmd]
          files := fs ++ (if env.xmlUnlinkOk then [] else [1]) }
      else
        if env.trCreateRc = 0 then
          { ok := true
            msg := trOkMsg (cpeMsg "schtasks /Create /XML" env.xmlCreateRc)
            events := evs ++ [SEvent.tmpCreate 1, SEvent.createXmlCmd, SEvent.createTrCmd]
            files := fs ++ (if env.xmlUnlinkOk then [] else [1]) }
        else
          { ok := false
            msg := bothFailMsg (cpeMsg "schtasks /Create /XML" env.xmlCreateRc)
              (cpeMsg "schtasks /Create ONLOGON" env.trCreateRc)
            events := evs ++ [SEvent.tmpCreate 1, SEvent.createXmlCmd, SEvent.createTrCmd]
            files := fs ++ (if env.xmlUnlinkOk then [] else [1]) }
    else
      { ok := false, msg := "tmp xml write failed"
        events := evs ++ [SEvent.tmpCreate 1], files := fs ++ [1] }

/-- Embeds delete_schtask: one schtasks /Delete call, failure captured as
(False, message). -/
def delete_schtask (env : SchedEnv) : SchedResult :=
  if env.deleteRc = 0 then
    { ok := true, msg := "Deleted", events := [SEvent.deleteCmd], files := [] }
  else
    { ok := false, msg := cpeMsg "schtasks /Delete" env.deleteRc
      events := [SEvent.deleteCmd], files := [] }

/-- Embeds schtask_exists: the /Query command is authoritative (returncode
zero means the task exists); any exception collapses to false. -/
def schtask_exists (env : SchedEnv) : Bool :=
  if env.queryRaises then false else env.queryRc == 0

/-- Embeds ensure_schtask_installed: query first, report "exists" without
acting when present, otherwise create. -/
def ensure_schtask_installed (env : SchedEnv) : SchedResult :=
  if schtask_exists env then
    { ok := true, msg := "exists", events := [SEvent.queryTask], files := [] }
  else
    let r := create_schtask env
    { r with events := SEvent.queryTask :: r.events }

/-- Embeds ensure_schtask_removed: query first, report "not found" without
acting when absent, otherwise delete. -/
def ensure_schtask_removed (env : SchedEnv) : SchedResult :=
  if !schtask_exists env then
    { ok := true, msg := "not found", events := [SEvent.queryTask], files := [] }
  else
    let r := delete_schtask env
    { r with events := SEvent.queryTask :: r.events }

/-- Scheduler-mutating registrar actions (creations and deletions; queries
and temp files are not scheduler mutations). -/
def isMutation : SEvent → Bool
  | .createXmlCmd => true
  | .createTrCmd => true
  | .deleteCmd => true
  | _ => false

/-- Occurrence count of events satisfying p. -/
def countB {α : Type} (p : α → Bool) : List α → Nat
  | [] => 0
  | a :: l => (if p a then 1 else 0) + countB p l

/-! ## Orchestrator (main) -/

/-- Outcome of one is_connected invocation: the requests.get call returns,
raises a requests.RequestException, or raises some other exception class
(timeouts and DNS failures are RequestException, hence `unreachable`). -/
inductive ProbeRes
  | reachable
  | unreachable
  | err (msg : String)
  deriving DecidableEq

/-- Embeds is_connected: only requests.RequestException is caught (giving
False); any other exception propagates. -/
def is_connected : ProbeRes → Except String Bool
  | .reachable => .ok true
  | .unreachable => .ok false
  | .err m => .error m

/-- stdout/stderr capture of one `sc` invocation. -/
structure ScOut where
  stdout : String
  stderr : String
  deriving DecidableEq

/-- Environment of one main run: the registrar environment, the outcome of
each probe (indexed by attempt), whether the notifier is enabled at each
notification (send_notification reloads the config each call) and whether
the k-th toast raises, the outcome of os.startfile, the captured output of
the j-th `sc query w32time` inside the resync step, and the w32tm /resync
exit data. -/
structure MainEnv where
  sched : SchedEnv
  probes : Nat → ProbeRes
  notifierOn : Bool
  toastFails : Nat → Bool
  startfileRes : Except String Unit
  scQuery : Nat → ScOut
  w32tmRc : Int
  w32tmOut : String
  w32tmErr : String

/-- Observable actions of a main run. `sleepInterval` is the retry-loop
time.sleep(check_interval); `pollSleep` is the 1-second service poll sleep
inside the built-in resync; `resyncAttempt` marks entry into the resync
step after a reachable probe; `notifyCall` records every send_notification
call site. -/
inductive MEvent
  | sEvent (e : SEvent)
  | ensureDone (install : Bool) (ok : Bool) (msg : String)
  | notifyCall (title : String) (message : String)
  | probe (res : Bool)
  | sleepInterval (n : Int)
  | resyncAttempt
  | startfile (path : ConfigVal)
  | scQueryCmd
  | scStartCmd
  | pollSleep
  | w32tmCmd
  deriving DecidableEq

/-- Embeds send_notification: the freshly reloaded use_notification switch
is env.notifierOn; when enabled, the k-th toast may raise. -/
def send_notification (env : MainEnv) (k : Nat) : Except String Unit :=
  if env.notifierOn then
    if env.toastFails k then .error "notification failed" else .ok ()
  else .ok ()

/-- Control outcome of the resync step: fall through to the loop break,
return from main, or an exception escaping even the outer handler. -/
inductive Ctl
  | normal
  | ret
  | exc (msg : String)
  deriving DecidableEq

/-- Fault carried by a control outcome. -/
def ctlFault : Ctl → Option String
  | .exc e => some e
  | _ => none

def noPathMsg : String := "No valid path configured for time update executable."

def successMsg : String := "The time has been checked successfully."

def svcFailMsg (e : String) : String := "w32tm failed or service not running: " ++ e

def launchFailMsg (e : String) : String := "Failed to launch Time checker: " ++ e

def w32tmErrMsg (env : MainEnv) : String :=
  "w32tm failed: " ++ toString env.w32tmRc ++ " " ++ env.w32tmOut ++ " " ++ env.w32tmErr

/-- Lifts an exception-producing call result to a control outcome, `good`
when the call returned. -/
def ctlOf (r : Except String Unit) (good : Ctl) : Ctl :=
  match r with
  | .error e => Ctl.exc e
  | .ok _ => good

/-- Embeds the external-path branch of the resync step (lines 245-251):
an empty configured path notifies and returns from main; otherwise
os.startfile is launched fire-and-forget and success is notified. Raised
exceptions (startfile or toast) surface as Ctl.exc for the outer handler. -/
def extPathBranch (cfg : Config) (env : MainEnv) (k : Nat) : List MEvent × Nat × Ctl :=
  let path := get_config_var cfg "Path" (ConfigVal.s "")
  if pyFalsy path then
    ([MEvent.notifyCall "Failure" noPathMsg], k + 1, ctlOf (send_notification env k) Ctl.ret)
  else
    match env.startfileRes with
    | .error e => ([MEvent.startfile path], k, Ctl.exc e)
    | .ok _ =>
      ([MEvent.startfile path, MEvent.notifyCall "Success" successMsg], k + 1,
       ctlOf (send_notification env k) Ctl.normal)

/-- Embeds the bounded service wait (lines 260-264): up to n rounds of
sleep(1) then `sc query`, stopping early when stdout reports RUNNING. -/
def pollWait (env : MainEnv) : Nat → Nat → List MEvent
  | 0, _ => []
  | n + 1, q =>
    if hasSubstr (env.scQuery q).stdout "RUNNING" then
      [MEvent.pollSleep, MEvent.scQueryCmd]
    else
      MEvent.pollSleep :: MEvent.scQueryCmd :: pollWait env n (q + 1)

/-- Embeds the built-in resync body (lines 255-267): query the service
(stdout and stderr combined for this first check), start it and poll when
not already RUNNING, then run w32tm /resync; a nonzero exit raises
RuntimeError (the error case). -/
def builtinPre (env : MainEnv) : List MEvent :=
  if hasSubstr ((env.scQuery 0).stdout ++ (env.scQuery 0).stderr) "RUNNING" then
    [MEvent.scQueryCmd]
  else
    MEvent.scQueryCmd :: MEvent.scStartCmd :: pollWait env 5 1

def builtinResync (env : MainEnv) : List MEvent × Except String Unit :=
  (builtinPre env ++ [MEvent.w32tmCmd],
   if env.w32tmRc = 0 then Except.ok () else Except.error (w32tmErrMsg env))

/-- Embeds the inner try/except of the built-in path (lines 254-270): a
RuntimeError or a failing Success toast is caught here and notified as
w32tm failure; only a failure of that failure-notification escapes. -/
def builtinBranch (env : MainEnv) (k : Nat) : List MEvent × Nat × Ctl :=
  match (builtinResync env).2 with
  | .ok _ =>
    match send_notification env k with
    | .ok _ => ((builtinResync env).1 ++ [MEvent.notifyCall "Success" successMsg], k + 1, Ctl.normal)
    | .error e =>
      ((builtinResync env).1 ++ [MEvent.notifyCall "Success" successMsg,
           MEvent.notifyCall "Failure" (svcFailMsg e)], k + 2,
       ctlOf (send_notification env (k + 1)) Ctl.normal)
  | .error e =>
    ((builtinResync env).1 ++ [MEvent.notifyCall "Failure" (svcFailMsg e)], k + 1,
     ctlOf (send_notification env k) Ctl.normal)

/-- Embeds the outer except at lines 271-272: any exception from the resync
body is notified as a launch failure; only a failure of that notification
escapes main. -/
def outerCatch (env : MainEnv) (x : List MEvent × Nat × Ctl) : List MEvent × Nat × Ctl :=
  match x with
  | (ev, k, Ctl.exc e) =>
    (ev ++ [MEvent.notifyCall "Failure" (launchFailMsg e)], k + 1,
     ctlOf (send_notification env k) Ctl.normal)
  | other => other

/-- Embeds the whole resync step (lines 244-272), reached after a reachable
probe: branch on the Use_excternal_path truthiness (a non-string value makes
the bare .lower() raise, caught by the outer handler). -/
def resyncBlock (cfg : Config) (env : MainEnv) (k : Nat) : List MEvent × Nat × Ctl :=
  outerCatch env
    (match pyLowerVal (get_config_var cfg "Use_excternal_path" (ConfigVal.s "No")) with
     | .error e => (([] : List MEvent), k, Ctl.exc e)
     | .ok low => if yesSet low then extPathBranch cfg env k else builtinBranch env k)

/-- The per-attempt retry notification text. -/
def remainMsg (m : Int) (i : Nat) : String :=
  "Network connection failed. Remain attempts: " ++ toString (m - (i : Int) - 1)

/-- Embeds the retry loop `for i in range(max_check_times)` (lines 242-279).
fuel is the number of remaining iterations (the caller passes
max_check_times.toNat), i the Python loop index, k the running count of
send_notification calls. The retry delay time.sleep(check_interval) at line
277 sits outside any try and raises ValueError for a negative argument, an
uncaught fault ending the run before any sleep occurs; the sleep event is
recorded only for a non-negative interval. Returns the loop trace and the
uncaught fault, if any. -/
def mainLoop (cfg : Config) (env : MainEnv) (ci m : Int) :
    Nat → Nat → Nat → List MEvent × Option String
  | 0, _, _ => ([], none)
  | fuel + 1, i, k =>
    match is_connected (env.probes i) with
    | .error e => ([], some e)
    | .ok true =>
      let r := resyncBlock cfg env k
      (MEvent.probe true :: MEvent.resyncAttempt :: r.1, ctlFault r.2.2)
    | .ok false =>
      if (i : Int) < m - 1 then
        match send_notification env k with
        | .error e => ([MEvent.probe false, MEvent.notifyCall "Failure" (remainMsg m i)], some e)
        | .ok _ =>
          if ci < 0 then
            ([MEvent.probe false, MEvent.notifyCall "Failure" (remainMsg m i)],
             some "ValueError: sleep length must be non-negative")
          else
            let l := mainLoop cfg env ci m fuel (i + 1) (k + 1)
            (MEvent.probe false :: MEvent.notifyCall "Failure" (remainMsg m i) ::
               MEvent.sleepInterval ci :: l.1, l.2)
      else
        match send_notification env k with
        | .error e => ([MEvent.probe false, MEvent.notifyCall "Failure" "Time check failed."], some e)
        | .ok _ => ([MEvent.probe false, MEvent.notifyCall "Failure" "Time check failed."], none)

/-- Fault carried by a notification call result. -/
def exceptFault : Except String Unit → Option String
  | .error e => some e
  | .ok _ => none

def autostartTitle (install : Bool) : String :=
  if install then "Autostart Failed" else "Autostart Cleanup Failed"

def autostartMsg (install : Bool) (m : String) : String :=
  if install then "Failed to create scheduled task: " ++ m
  else "Failed to remove scheduled task: " ++ m

/-- Embeds the autostart reconciliation at the top of main (lines 229-238):
read lauch_when_device_start, install or remove the scheduled task, and
notify on registrar failure. Returns the trace, the notification count and
an uncaught fault (a failing failure-toast), if any. -/
def autostartStep (cfg : Config) (env : MainEnv) : List MEvent × Nat × Option String :=
  let auto := get_config_var cfg "lauch_when_device_start" (ConfigVal.s "No")
  let install := yesSet (pyLower (pyStr auto))
  let r := if install then ensure_schtask_installed env.sched else ensure_schtask_removed env.sched
  let ev0 := r.events.map MEvent.sEvent ++ [MEvent.ensureDone install r.ok r.msg]
  if r.ok then (ev0, 0, none)
  else
    (ev0 ++ [MEvent.notifyCall (autostartTitle install) (autostartMsg install r.msg)], 1,
     exceptFault (send_notification env 0))

/-- Embeds main (lines 227-279): autostart reconciliation, then the two
int() conversions (whose ValueError is uncaught), then the retry loop.
Returns the full trace and the uncaught fault escaping main, if any. -/
def main (cfg : Config) (env : MainEnv) : List MEvent × Option String :=
  let a := autostartStep cfg env
  match a.2.2, pyInt (get_config_var cfg "max_check_times" (ConfigVal.i 3)),
        pyInt (get_config_var cfg "check_interval" (ConfigVal.i 1000)) with
  | some e, _, _ => (a.1, some e)
  | none, .error e, _ => (a.1, some e)
  | none, .ok _, .error e => (a.1, some e)
  | none, .ok m, .ok ci =>
    ((a.1 ++ (mainLoop cfg env ci m m.toNat 0 a.2.1).1),
     (mainLoop cfg env ci m m.toNat 0 a.2.1).2)

/-! ### Event classifiers -/

def isProbe : MEvent → Bool
  | .probe _ => true
  | _ => false

def isResync : MEvent → Bool
  | .resyncAttempt => true
  | _ => false

def isSleepInterval : MEvent → Bool
  | .sleepInterval _ => true
  | _ => false

def isStartfile : MEvent → Bool
  | .startfile _ => true
  | _ => false

def isEnsure : MEvent → Bool
  | .ensureDone _ _ _ => true
  | _ => false

def isNotifyCall : MEvent → Bool
  | .notifyCall _ _ => true
  | _ => false

/-- Events the resync step (executor) can emit. -/
def isExecEv : MEvent → Bool
  | .notifyCall _ _ => true
  | .startfile _ => true
  | .scQueryCmd => true
  | .scStartCmd => true
  | .pollSleep => true
  | .w32tmCmd => true
  | _ => false

/-- Events the autostart reconciliation can emit. -/
def isAutoEv : MEvent → Bool
  | .sEvent _ => true
  | .ensureDone _ _ _ => true
  | .notifyCall _ _ => true
  | _ => false

/-- One unreachable-and-retry iteration of the loop trace. -/
def unreachEv (ci m : Int) (i : Nat) : List MEvent :=
  [MEvent.probe false, MEvent.notifyCall "Failure" (remainMsg m i), MEvent.sleepInterval ci]

/-- Trace of d consecutive unreachable-and-retry iterations starting at
attempt i. -/
def unreachTrail (ci m : Int) (i : Nat) : Nat → List MEvent
  | 0 => []
  | d + 1 => unreachEv ci m i ++ unreachTrail ci m (i + 1) d

/-! ### Counting and classification lemmas -/

theorem countB_append {α : Type} (p : α → Bool) (l1 l2 : List α) :
    countB p (l1 ++ l2) = countB p l1 + countB p l2 := by
  induction l1 with
  | nil => simp [countB]
  | cons a l ih => simp [countB, ih, Nat.add_assoc]

theorem countB_zero {α : Type} (p : α → Bool) (l : List α)
    (h : ∀ a ∈ l, p a = false) : countB p l = 0 := by
  induction l with
  | nil => rfl
  | cons a l ih =>
    simp only [countB, h a (by simp)]
    simpa using ih (fun x hx => h x (by simp [hx]))

/-- A benign toast never raises. -/
theorem send_benign (env : MainEnv) (k : Nat) (h : env.toastFails k = false) :
    send_notification env k = Except.ok () := by
  unfold send_notification
  cases hn : env.notifierOn <;> simp [h]

theorem autostart_fault (cfg : Config) (env : MainEnv)
    (hb : ∀ k, env.toastFails k = false) :
    (autostartStep cfg env).2.2 = none := by
  simp only [autostartStep]
  rw [send_benign env 0 (hb 0)]
  split <;> split <;> rfl

/-- The autostart trace is the mapped registrar actions, the reconciliation
marker, and at most one failure notification. -/
theorem autostart_shape (cfg : Config) (env : MainEnv) :
    ∃ (r : SchedResult) (install : Bool) (tail : List MEvent),
      (autostartStep cfg env).1 =
        r.events.map MEvent.sEvent ++ MEvent.ensureDone install r.ok r.msg :: tail ∧
      (tail = [] ∨
        tail = [MEvent.notifyCall (autostartTitle install) (autostartMsg install r.msg)]) := by
  simp only [autostartStep]
  split <;> split
  · exact ⟨ensure_schtask_installed env.sched,
      yesSet (pyLower (pyStr (get_config_var cfg "lauch_when_device_start" (ConfigVal.s "No")))),
      [], by simp, Or.inl rfl⟩
  · exact ⟨ensure_schtask_installed env.sched,
      yesSet (pyLower (pyStr (get_config_var cfg "lauch_when_device_start" (ConfigVal.s "No")))),
      [_], by simp, Or.inr rfl⟩
  · exact ⟨ensure_schtask_removed env.sched,
      yesSet (pyLower (pyStr (get_config_var cfg "lauch_when_device_start" (ConfigVal.s "No")))),
      [], by simp, Or.inl rfl⟩
  · exact ⟨ensure_schtask_removed env.sched,
      yesSet (pyLower (pyStr (get_config_var cfg "lauch_when_device_start" (ConfigVal.s "No")))),
      [_], by simp, Or.inr rfl⟩

theorem autostart_auto (cfg : Config) (env : MainEnv) :
    ∀ e ∈ (autostartStep cfg env).1, isAutoEv e = true := by
  obtain ⟨r, install, tail, hsh, htail⟩ := autostart_shape cfg env
  intro e he
  rw [hsh] at he
  rcases htail with rfl | rfl
  · simp at he
    rcases he with ⟨s, _, rfl⟩ | rfl <;> rfl
  · simp at he
    rcases he with ⟨s, _, rfl⟩ | rfl | rfl <;> rfl

theorem autostart_ensure_once (cfg : Config) (env : MainEnv) :
    countB isEnsure (autostartStep cfg env).1 = 1 := by
  obtain ⟨r, install, tail, hsh, htail⟩ := autostart_shape cfg env
  have hmap : countB isEnsure (r.events.map MEvent.sEvent) = 0 := by
    refine countB_zero _ _ ?_
    intro a ha
    simp at ha
    obtain ⟨s, _, rfl⟩ := ha
    rfl
  rcases htail with rfl | rfl <;>
    rw [hsh, countB_append, hmap] <;> simp [countB, isEnsure]

theorem autostart_notify_titles (cfg : Config) (env : MainEnv) :
    ∀ t s, MEvent.notifyCall t s ∈ (autostartStep cfg env).1 →
      t = "Autostart Failed" ∨ t = "Autostart Cleanup Failed" := by
  obtain ⟨r, install, tail, hsh, htail⟩ := autostart_shape cfg env
  intro t s h
  rw [hsh] at h
  rcases htail with rfl | rfl
  · simp at h
  · simp at h
    obtain ⟨rfl, -⟩ := h
    unfold autostartTitle
    split <;> simp

/-- countB vanishes on a list drawn from one event class when the counted
predicate rejects that whole class. -/
theorem countB_zero_of_class {p q : MEvent → Bool} (l : List MEvent)
    (hcl : ∀ e ∈ l, q e = true) (him : ∀ e, q e = true → p e = false) :
    countB p l = 0 :=
  countB_zero p l (fun e he => him e (hcl e he))

theorem pollWait_exec (env : MainEnv) :
    ∀ n q, ∀ e ∈ pollWait env n q, isExecEv e = true := by
  intro n
  induction n with
  | zero => intro q e he; simp [pollWait] at he
  | succ n ih =>
    intro q e he
    unfold pollWait at he
    split at he
    · simp at he
      rcases he with rfl | rfl <;> rfl
    · simp at he
      rcases he with rfl | rfl | hm
      · rfl
      · rfl
      · exact ih (q + 1) e hm

theorem builtinResync_exec (env : MainEnv) :
    ∀ e ∈ (builtinResync env).1, isExecEv e = true := by
  intro e he
  simp only [builtinResync, builtinPre] at he
  split at he
  · simp at he
    rcases he with rfl | rfl <;> rfl
  · simp at he
    rcases he with rfl | rfl | hm | rfl
    · rfl
    · rfl
    · exact pollWait_exec env 5 1 e hm
    · rfl

theorem builtinBranch_exec (env : MainEnv) (k : Nat) :
    ∀ e ∈ (builtinBranch env k).1, isExecEv e = true := by
  intro e he
  simp only [builtinBranch] at he
  rcases h2 : (builtinResync env).2 with e1 | u
  all_goals simp only [h2] at he
  · simp at he
    rcases he with hm | rfl
    · exact builtinResync_exec env e hm
    · rfl
  · rcases hs : send_notification env k with e1 | u1
    all_goals simp only [hs] at he
    · simp at he
      rcases he with hm | rfl | rfl
      · exact builtinResync_exec env e hm
      · rfl
      · rfl
    · simp at he
      rcases he with hm | rfl
      · exact builtinResync_exec env e hm
      · rfl

theorem extPathBranch_exec (cfg : Config) (env : MainEnv) (k : Nat) :
    ∀ e ∈ (extPathBranch cfg env k).1, isExecEv e = true := by
  intro e he
  simp only [extPathBranch] at he
  cases hp : pyFalsy (get_config_var cfg "Path" (ConfigVal.s ""))
  all_goals simp only [hp] at he
  · rcases hr : env.startfileRes with e1 | u
    all_goals simp only [hr] at he
    · simp at he
      subst he
      rfl
    · simp at he
      rcases he with rfl | rfl <;> rfl
  · simp at he
    subst he
    rfl

theorem outerCatch_exec (env : MainEnv) (x : List MEvent × Nat × Ctl)
    (hx : ∀ e ∈ x.1, isExecEv e = true) :
    ∀ e ∈ (outerCatch env x).1, isExecEv e = true := by
  intro e he
  rcases x with ⟨ev, k, c⟩
  cases c
  · exact hx e he
  · exact hx e he
  · simp only [outerCatch] at he
    simp at he
    rcases he with hm | rfl
    · exact hx e hm
    · rfl

theorem resyncBlock_exec (cfg : Config) (env : MainEnv) (k : Nat) :
    ∀ e ∈ (resyncBlock cfg env k).1, isExecEv e = true := by
  unfold resyncBlock
  apply outerCatch_exec
  split
  · intro e he; simp at he
  · split
    · exact extPathBranch_exec cfg env k
    · exact builtinBranch_exec env k

/-- With a benign notifier, no exception escapes the resync step: every
failure inside it ends in a notification and a loop break (or the
no-valid-path return). -/
theorem resyncBlock_fault (cfg : Config) (env : MainEnv) (k : Nat)
    (hb : ∀ j, env.toastFails j = false) :
    ctlFault (resyncBlock cfg env k).2.2 = none := by
  have hs : ∀ j, send_notification env j = Except.ok () := fun j => send_benign env j (hb j)
  unfold resyncBlock
  rcases hlow : pyLowerVal (get_config_var cfg "Use_excternal_path" (ConfigVal.s "No")) with e | low
  · simp [outerCatch, ctlOf, ctlFault, hs]
  · by_cases hy : yesSet low = true
    · cases hp : pyFalsy (get_config_var cfg "Path" (ConfigVal.s ""))
      · rcases hr : env.startfileRes with e1 | u
        · simp [extPathBranch, hy, hp, hr, outerCatch, ctlOf, ctlFault, hs]
        · simp [extPathBranch, hy, hp, hr, outerCatch, ctlOf, ctlFault, hs]
      · simp [extPathBranch, hy, hp, outerCatch, ctlOf, ctlFault, hs]
    · rcases h2 : (builtinResync env).2 with e1 | u
      · simp [builtinBranch, hy, h2, outerCatch, ctlOf, ctlFault, hs]
      · simp [builtinBranch, hy, h2, outerCatch, ctlOf, ctlFault, hs]

/-- With the external path selected and an empty configured path, the resync
step is exactly the no-valid-path failure notification followed by the
return from main. -/
theorem resyncBlock_nopath (cfg : Config) (env : MainEnv) (k : Nat) (u : String)
    (hb : ∀ j, env.toastFails j = false)
    (hlow : get_config_var cfg "Use_excternal_path" (ConfigVal.s "No") = ConfigVal.s u)
    (hyes : yesSet (pyLower u) = true)
    (hpath : pyFalsy (get_config_var cfg "Path" (ConfigVal.s "")) = true) :
    resyncBlock cfg env k = ([MEvent.notifyCall "Failure" noPathMsg], k + 1, Ctl.ret) := by
  have hs : send_notification env k = Except.ok () := send_benign env k (hb k)
  unfold resyncBlock
  rw [hlow]
  simp [pyLowerVal, hyes, extPathBranch, hpath, ctlOf, hs, outerCatch]

/-- With the built-in path selected and the very first service query already
reporting RUNNING, the resync step issues exactly the query and the w32tm
command, followed only by notification calls. -/
theorem resyncBlock_running (cfg : Config) (env : MainEnv) (k : Nat) (u : String)
    (hlow : get_config_var cfg "Use_excternal_path" (ConfigVal.s "No") = ConfigVal.s u)
    (hno : yesSet (pyLower u) = false)
    (hrun : hasSubstr ((env.scQuery 0).stdout ++ (env.scQuery 0).stderr) "RUNNING" = true) :
    ∃ tail, (resyncBlock cfg env k).1 = MEvent.scQueryCmd :: MEvent.w32tmCmd :: tail ∧
      ∀ e ∈ tail, isNotifyCall e = true := by
  have hb1 : (builtinResync env).1 = [MEvent.scQueryCmd, MEvent.w32tmCmd] := by
    simp [builtinResync, builtinPre, hrun]
  unfold resyncBlock
  rw [hlow]
  simp only [pyLowerVal, hno, Bool.false_eq_true, if_false]
  rcases h2 : (builtinResync env).2 with e1 | u1
  · rcases hs : send_notification env k with e2 | u2
    · refine ⟨[MEvent.notifyCall "Failure" (svcFailMsg e1),
        MEvent.notifyCall "Failure" (launchFailMsg e2)], ?_, ?_⟩
      · simp [builtinBranch, h2, hs, ctlOf, outerCatch, hb1]
      · intro e he
        simp at he
        rcases he with rfl | rfl <;> rfl
    · refine ⟨[MEvent.notifyCall "Failure" (svcFailMsg e1)], ?_, ?_⟩
      · simp [builtinBranch, h2, hs, ctlOf, outerCatch, hb1]
      · intro e he
        simp at he
        subst he
        rfl
  · rcases hs : send_notification env k with e2 | u2
    · rcases hs2 : send_notification env (k + 1) with e3 | u3
      · refine ⟨[MEvent.notifyCall "Success" successMsg,
          MEvent.notifyCall "Failure" (svcFailMsg e2),
          MEvent.notifyCall "Failure" (launchFailMsg e3)], ?_, ?_⟩
        · simp [builtinBranch, h2, hs, hs2, ctlOf, outerCatch, hb1]
        · intro e he
          simp at he
          rcases he with rfl | rfl | rfl <;> rfl
      · refine ⟨[MEvent.notifyCall "Success" successMsg,
          MEvent.notifyCall "Failure" (svcFailMsg e2)], ?_, ?_⟩
        · simp [builtinBranch, h2, hs, hs2, ctlOf, outerCatch, hb1]
        · intro e he
          simp at he
          rcases he with rfl | rfl <;> rfl
    · refine ⟨[MEvent.notifyCall "Success" successMsg], ?_, ?_⟩
      · simp [builtinBranch, h2, hs, ctlOf, outerCatch, hb1]
      · intro e he
        simp at he
        subst he
        rfl

/-- countB over an unreachable-retry trail: the notify entries never count,
so each of the d iterations contributes its probe and its sleep. -/
theorem unreachTrail_count (ci m : Int) (p : MEvent → Bool)
    (hn : ∀ t s, p (MEvent.notifyCall t s) = false) :
    ∀ d i, countB p (unreachTrail ci m i d) =
      d * ((if p (MEvent.probe false) then 1 else 0) +
           (if p (MEvent.sleepInterval ci) then 1 else 0)) := by
  intro d
  induction d with
  | zero => intro i; simp [unreachTrail, countB]
  | succ d ih =>
    intro i
    simp only [unreachTrail, unreachEv, countB_append, countB, hn, List.nil_append,
      List.append_eq]
    rw [ih (i + 1)]
    cases hp : p (MEvent.probe false) <;> cases hq : p (MEvent.sleepInterval ci) <;>
      simp [hp, hq] <;> omega

/-- Characterization of the retry loop when the first reachable probe is at
offset d0: a trail of d0 retry iterations, then the reachable probe, the
resync step, and no uncaught fault. -/
theorem mainLoop_reach (cfg : Config) (env : MainEnv) (ci m : Int)
    (hb : ∀ j, env.toastFails j = false) (hci : 0 ≤ ci) :
    ∀ (d0 fuel i k : Nat), d0 < fuel → m = (i : Int) + (fuel : Int) →
      (∀ d, d < d0 → env.probes (i + d) = ProbeRes.unreachable) →
      env.probes (i + d0) = ProbeRes.reachable →
      mainLoop cfg env ci m fuel i k =
        (unreachTrail ci m i d0 ++
           MEvent.probe true :: MEvent.resyncAttempt :: (resyncBlock cfg env (k + d0)).1,
         none) := by
  intro d0
  induction d0 with
  | zero =>
    intro fuel i k hlt hm hpre hre
    obtain ⟨f, rfl⟩ : ∃ f, fuel = f + 1 := ⟨fuel - 1, by omega⟩
    rw [Nat.add_zero] at hre
    simp only [mainLoop, hre, is_connected]
    rw [resyncBlock_fault cfg env k hb]
    simp [unreachTrail]
  | succ d ih =>
    intro fuel i k hlt hm hpre hre
    obtain ⟨f, rfl⟩ : ∃ f, fuel = f + 1 := ⟨fuel - 1, by omega⟩
    have hpi : env.probes i = ProbeRes.unreachable := by
      simpa using hpre 0 (Nat.succ_pos d)
    have hcond : ((i : Nat) : Int) < m - 1 := by
      push_cast at hm
      omega
    have hs := send_benign env k (hb k)
    have hpre2 : ∀ d2, d2 < d → env.probes (i + 1 + d2) = ProbeRes.unreachable := by
      intro d2 hd2
      have h := hpre (d2 + 1) (by omega)
      have heq : i + (d2 + 1) = i + 1 + d2 := by omega
      rw [heq] at h
      exact h
    have hre2 : env.probes (i + 1 + d) = ProbeRes.reachable := by
      have heq : i + (d + 1) = i + 1 + d := by omega
      rw [heq] at hre
      exact hre
    have hm2 : m = ((i + 1 : Nat) : Int) + ((f : Nat) : Int) := by
      push_cast at hm ⊢
      omega
    have hrec := ih f (i + 1) (k + 1) (by omega) hm2 hpre2 hre2
    have hcneg : ¬ci < 0 := by omega
    simp only [mainLoop, hpi, is_connected, hs]
    rw [if_pos hcond, if_neg hcneg, hrec]
    have hkk : k + 1 + d = k + (d + 1) := by omega
    simp [unreachTrail, unreachEv, hkk]

/-- Characterization of the retry loop when every probe is unreachable:
fuel-1 retry iterations, the terminal failure notification, and no uncaught
fault. -/
theorem mainLoop_noreach (cfg : Config) (env : MainEnv) (ci m : Int)
    (hb : ∀ j, env.toastFails j = false) (hci : 0 ≤ ci) :
    ∀ (fuel i k : Nat), 1 ≤ fuel → m = (i : Int) + (fuel : Int) →
      (∀ d, d < fuel → env.probes (i + d) = ProbeRes.unreachable) →
      mainLoop cfg env ci m fuel i k =
        (unreachTrail ci m i (fuel - 1) ++
           [MEvent.probe false, MEvent.notifyCall "Failure" "Time check failed."],
         none) := by
  intro fuel
  induction fuel with
  | zero => intro i k h; omega
  | succ f ih =>
    intro i k hpos hm hpre
    have hpi : env.probes i = ProbeRes.unreachable := by
      simpa using hpre 0 (by omega)
    have hs := send_benign env k (hb k)
    cases Nat.eq_zero_or_pos f with
    | inl hf0 =>
      subst hf0
      have hcond : ¬(((i : Nat) : Int) < m - 1) := by
        push_cast at hm
        omega
      simp only [mainLoop, hpi, is_connected, hs]
      rw [if_neg hcond]
      simp [unreachTrail]
    | inr hfpos =>
      have hcond : ((i : Nat) : Int) < m - 1 := by
        push_cast at hm
        omega
      have hm2 : m = ((i + 1 : Nat) : Int) + ((f : Nat) : Int) := by
        push_cast at hm ⊢
        omega
      have hpre2 : ∀ d, d < f → env.probes (i + 1 + d) = ProbeRes.unreachable := by
        intro d hd
        have h := hpre (d + 1) (by omega)
        have heq : i + (d + 1) = i + 1 + d := by omega
        rw [heq] at h
        exact h
      have hrec := ih (i + 1) (k + 1) hfpos hm2 hpre2
      have hcneg : ¬ci < 0 := by omega
      simp only [mainLoop, hpi, is_connected, hs]
      rw [if_pos hcond, if_neg hcneg, hrec]
      obtain ⟨f2, rfl⟩ : ∃ f2, f = f2 + 1 := ⟨f - 1, by omega⟩
      simp [unreachTrail, unreachEv]

/-- Unfolding of main under a benign notifier and integer-valued loop
configuration: the autostart trace followed by the retry loop. -/
theorem main_eq (cfg : Config) (env : MainEnv) (n c : Int)
    (hm : get_config_var cfg "max_check_times" (ConfigVal.i 3) = ConfigVal.i n)
    (hc : get_config_var cfg "check_interval" (ConfigVal.i 1000) = ConfigVal.i c)
    (hb : ∀ j, env.toastFails j = false) :
    main cfg env =
      ((autostartStep cfg env).1 ++
         (mainLoop cfg env c n n.toNat 0 (autostartStep cfg env).2.1).1,
       (mainLoop cfg env c n n.toNat 0 (autostartStep cfg env).2.1).2) := by
  have ha := autostart_fault cfg env hb
  simp only [main, hm, hc, pyInt, ha]

/-- Autostart-class events are never loop-level events. -/
theorem isAutoEv_not_loop (e : MEvent) (he : isAutoEv e = true) :
    isProbe e = false ∧ isResync e = false ∧ isSleepInterval e = false ∧
    isStartfile e = false := by
  cases e <;> simp_all [isAutoEv, isProbe, isResync, isSleepInterval, isStartfile]

/-- Resync-step events are never loop-level events. -/
theorem isExecEv_not_loop (e : MEvent) (he : isExecEv e = true) :
    isProbe e = false ∧ isResync e = false ∧ isSleepInterval e = false := by
  cases e <;> simp_all [isExecEv, isProbe, isResync, isSleepInterval]

theorem countB_autostart_zero (cfg : Config) (env : MainEnv) (p : MEvent → Bool)
    (hp : ∀ e, isAutoEv e = true → p e = false) :
    countB p (autostartStep cfg env).1 = 0 :=
  countB_zero_of_class _ (autostart_auto cfg env) hp

theorem countB_resyncBlock_zero (cfg : Config) (env : MainEnv) (k : Nat) (p : MEvent → Bool)
    (hp : ∀ e, isExecEv e = true → p e = false) :
    countB p (resyncBlock cfg env k).1 = 0 :=
  countB_zero_of_class _ (resyncBlock_exec cfg env k) hp

/-! ## Concrete environments for witnesses and counterexamples -/

/-- A registrar environment where every command and file operation
succeeds and the task already exists. -/
def schedEnvOk : SchedEnv where
  queryRc := 0
  queryRaises := false
  buildWriteOk := true
  buildReadOk := true
  buildUnlinkOk := true
  xmlWriteOk := true
  xmlUnlinkOk := true
  xmlCreateRc := 0
  trCreateRc := 0
  deleteRc := 0

/-- Like schedEnvOk but the task is absent. -/
def schedEnvAbsent : SchedEnv := { schedEnvOk with queryRc := 1 }

/-- Task absent and the write of the second temporary descriptor file
fails. -/
def schedEnvTmpFail : SchedEnv := { schedEnvOk with queryRc := 1, xmlWriteOk := false }

/-- Separate copy of the leak scenario for the cleanup claim. -/
def schedEnvLeak : SchedEnv := { schedEnvOk with queryRc := 1, xmlWriteOk := false }

/-- Descriptor submission fails with exit 1, fallback succeeds. -/
def schedEnvXmlRcFail : SchedEnv := { schedEnvOk with xmlCreateRc := 1 }

/-- Task absent, both creation commands fail, all file operations fine. -/
def schedEnvBothFail : SchedEnv :=
  { schedEnvOk with queryRc := 1, xmlCreateRc := 1, trCreateRc := 1 }

/-- A benign main environment: task exists, probes always unreachable,
notifier enabled and reliable, all resync commands succeed. -/
def envBase : MainEnv where
  sched := schedEnvOk
  probes := fun _ => ProbeRes.unreachable
  notifierOn := true
  toastFails := fun _ => false
  startfileRes := Except.ok ()
  scQuery := fun _ => { stdout := "", stderr := "" }
  w32tmRc := 0
  w32tmOut := ""
  w32tmErr := ""

/-- envBase with every probe reachable. -/
def envReach : MainEnv := { envBase with probes := fun _ => ProbeRes.reachable }

/-- envBase with probes unreachable twice then reachable. -/
def envTwoFails : MainEnv :=
  { envBase with probes := fun j => if j ≤ 1 then ProbeRes.unreachable else ProbeRes.reachable }

/-- envReach with the very first service query reporting RUNNING. -/
def envRunning : MainEnv :=
  { envReach with scQuery := fun _ => { stdout := "STATE : 4 RUNNING", stderr := "" } }

/-- A configuration whose max_check_times cannot be parsed as an integer. -/
def cfgBadInt : Config := [("max_check_times", ConfigVal.s "soon")]

/-- External-path resync selected, path left at its empty default. -/
def cfgExtNoPath : Config := [("Use_excternal_path", ConfigVal.s "Yes")]

/-- max_check_times set to zero. -/
def cfgZeroTimes : Config := [("max_check_times", ConfigVal.i 0)]

/-- envBase with the first probe unreachable and every later one reachable. -/
def envOneFail : MainEnv :=
  { envBase with probes := fun j => if j = 0 then ProbeRes.unreachable else ProbeRes.reachable }

/-- Two probe attempts configured with a negative retry interval. -/
def cfgNegTwo : Config :=
  [("max_check_times", ConfigVal.i 2), ("check_interval", ConfigVal.i (-1))]

/-- Default three probe attempts with a negative retry interval. -/
def cfgNegInterval : Config := [("check_interval", ConfigVal.i (-1))]

/-! ## Claim theorems -/

def isCreateTr : SEvent → Bool
  | .createTrCmd => true
  | _ => false

/-- C6: ensure_schtask_installed and ensure_schtask_removed query the
registration state first and act only if the desired state differs: when
the task exists, install returns (true, "exists") with no scheduler
mutation; when it is absent, removal returns (true, "not found") with no
scheduler mutation. -/
theorem claim6_idempotent (env : SchedEnv) :
    (schtask_exists env = true →
      ensure_schtask_installed env =
        { ok := true, msg := "exists", events := [SEvent.queryTask], files := [] } ∧
      countB isMutation (ensure_schtask_installed env).events = 0) ∧
    (schtask_exists env = false →
      ensure_schtask_removed env =
        { ok := true, msg := "not found", events := [SEvent.queryTask], files := [] } ∧
      countB isMutation (ensure_schtask_removed env).events = 0) := by
  constructor
  · intro h
    have heq : ensure_schtask_installed env =
        { ok := true, msg := "exists", events := [SEvent.queryTask], files := [] } := by
      simp [ensure_schtask_installed, h]
    exact ⟨heq, by rw [heq]; rfl⟩
  · intro h
    have heq : ensure_schtask_removed env =
        { ok := true, msg := "not found", events := [SEvent.queryTask], files := [] } := by
      simp [ensure_schtask_removed, h]
    exact ⟨heq, by rw [heq]; rfl⟩

theorem claim6_witness :
    (ensure_schtask_installed schedEnvOk =
      { ok := true, msg := "exists", events := [SEvent.queryTask], files := [] } ∧
     countB isMutation (ensure_schtask_installed schedEnvOk).events = 0) ∧
    (ensure_schtask_removed schedEnvAbsent =
      { ok := true, msg := "not found", events := [SEvent.queryTask], files := [] } ∧
     countB isMutation (ensure_schtask_removed schedEnvAbsent).events = 0) :=
  ⟨(claim6_idempotent schedEnvOk).1 rfl, (claim6_idempotent schedEnvAbsent).2 rfl⟩

/-- C3 counterexample: a temp-file write failure makes the descriptor path
fail, yet create_schtask performs no fallback attempt (its failure handler
only catches the scheduler command's CalledProcessError), even though the
fallback command would have succeeded in this environment. -/
theorem claim3_cex_no_fallback :
    (create_schtask schedEnvTmpFail).ok = false ∧
    countB isCreateTr (create_schtask schedEnvTmpFail).events = 0 :=
  ⟨rfl, rfl⟩

/-- C3 amended: the fallback to direct command-line creation happens exactly
when the schtasks /Create /XML command itself fails (nonzero exit) after a
successfully synthesized and written descriptor, reporting the fallback
success or the combined failure; a synthesis or temp-file error instead
returns failure directly with no fallback attempt. -/
theorem claim3_amended_fallback (env : SchedEnv) (hx : env.xmlCreateRc ≠ 0) :
    (env.buildWriteOk = true → env.buildReadOk = true → env.xmlWriteOk = true →
      countB isCreateTr (create_schtask env).events = 1 ∧
      ((create_schtask env).ok = true ↔ env.trCreateRc = 0) ∧
      (env.trCreateRc = 0 →
        (create_schtask env).msg = trOkMsg (cpeMsg "schtasks /Create /XML" env.xmlCreateRc)) ∧
      (env.trCreateRc ≠ 0 →
        (create_schtask env).msg =
          bothFailMsg (cpeMsg "schtasks /Create /XML" env.xmlCreateRc)
            (cpeMsg "schtasks /Create ONLOGON" env.trCreateRc))) ∧
    ((env.buildWriteOk = false ∨ env.buildReadOk = false ∨ env.xmlWriteOk = false) →
      countB isCreateTr (create_schtask env).events = 0 ∧ (create_schtask env).ok = false) := by
  constructor
  · intro h1 h2 h3
    simp only [create_schtask, build_task_xml, h1, h2, h3, if_true]
    rw [if_neg hx]
    by_cases ht : env.trCreateRc = 0
    · rw [if_pos ht]
      refine ⟨by simp [countB, isCreateTr], by simp [ht], fun _ => rfl, fun h => absurd ht h⟩
    · rw [if_neg ht]
      refine ⟨by simp [countB, isCreateTr], by simp [ht], fun h => absurd h ht, fun _ => rfl⟩
  · intro h
    rcases h with h | h | h
    · simp [create_schtask, build_task_xml, h, countB, isCreateTr]
    · cases hw : env.buildWriteOk
      · simp [create_schtask, build_task_xml, hw, countB, isCreateTr]
      · simp [create_schtask, build_task_xml, hw, h, countB, isCreateTr]
    · cases hw : env.buildWriteOk
      · simp [create_schtask, build_task_xml, hw, countB, isCreateTr]
      · cases hr : env.buildReadOk
        · simp [create_schtask, build_task_xml, hw, hr, countB, isCreateTr]
        · simp [create_schtask, build_task_xml, hw, hr, h, countB, isCreateTr]

theorem claim3_witness :
    countB isCreateTr (create_schtask schedEnvXmlRcFail).events = 1 ∧
    (create_schtask schedEnvXmlRcFail).ok = true := by
  have h := (claim3_amended_fallback schedEnvXmlRcFail (by decide)).1 rfl rfl rfl
  exact ⟨h.1, h.2.1.mpr rfl⟩

/-- C4: on a missing config file, load_config returns and writes the default
dict literally as written in the source; its first key carries a stray
trailing colon, so the mapping holds "Use_excternal_path:" and not the
recognized option name "Use_excternal_path" that main reads. -/
theorem claim4_default_mapping :
    (load_config FileState.missing true).1 = defaultConfig ∧
    (load_config FileState.missing true).2 = FileState.mapping defaultConfig ∧
    lookupCfg defaultConfig "Use_excternal_path" = none ∧
    lookupCfg defaultConfig "Use_excternal_path:" = some (ConfigVal.s "No") ∧
    lookupCfg defaultConfig "Path" = some (ConfigVal.s "") ∧
    lookupCfg defaultConfig "lauch_when_device_start" = some (ConfigVal.s "No") ∧
    lookupCfg defaultConfig "check_interval" = some (ConfigVal.i 1000) ∧
    lookupCfg defaultConfig "max_check_times" = some (ConfigVal.i 3) ∧
    lookupCfg defaultConfig "use_notification" = some (ConfigVal.s "Yes") :=
  ⟨rfl, rfl, rfl, rfl, rfl, rfl, rfl, rfl, rfl⟩

/-- C9 counterexample: with the task absent and the write of the second
temporary descriptor file failing, ensure_schtask_installed returns with
that temporary file still on disk. -/
theorem claim9_cex_leak :
    (ensure_schtask_installed schedEnvLeak).files = [1] := rfl

/-- C9 amended: on every exit path on which the temporary files are written
and read successfully and the unlink attempts succeed (descriptor creation
success, fallback creation, or combined failure alike), no temporary
descriptor file remains when ensure_schtask_installed returns. -/
theorem claim9_amended_cleanup (env : SchedEnv)
    (h1 : env.buildWriteOk = true) (h2 : env.buildReadOk = true) (h3 : env.xmlWriteOk = true)
    (h4 : env.buildUnlinkOk = true) (h5 : env.xmlUnlinkOk = true) :
    (ensure_schtask_installed env).files = [] := by
  unfold ensure_schtask_installed
  split
  · rfl
  · simp only [create_schtask, build_task_xml, h1, h2, h3, h4, h5, if_true]
    split
    · simp
    · split <;> simp

theorem claim9_witness :
    (ensure_schtask_installed schedEnvBothFail).files = [] :=
  claim9_amended_cleanup schedEnvBothFail rfl rfl rfl rfl rfl

/-- C1 counterexample: with max_check_times = 2, check_interval = -1 and the
probe outcome sequence [Unreachable, Reachable], a probe among the first n
returns Reachable, yet the run performs zero resync attempts: the retry
time.sleep before the second probe raises an uncaught ValueError. -/
theorem claim1_cex_negative_interval :
    envOneFail.probes 1 = ProbeRes.reachable ∧
    countB isResync (main cfgNegTwo envOneFail).1 = 0 ∧
    (main cfgNegTwo envOneFail).2 = some "ValueError: sleep length must be non-negative" :=
  ⟨rfl, rfl, rfl⟩

/-- C1 amended: with max_check_times = n ≥ 1, a non-negative check_interval
(a negative one makes the retry time.sleep raise an uncaught ValueError,
ending the run before any later probe) and a benign notifier, the run
performs exactly one resync attempt when the probes first report reachable
at some attempt j0 < n (stopping there: exactly j0+1 probes happen), and
zero resync attempts with all n probes performed when every probe is
unreachable; either way the run completes without an uncaught fault. -/
theorem claim1_retry_resync_counts (cfg : Config) (env : MainEnv) (n c : Int)
    (hm : get_config_var cfg "max_check_times" (ConfigVal.i 3) = ConfigVal.i n)
    (hc : get_config_var cfg "check_interval" (ConfigVal.i 1000) = ConfigVal.i c)
    (hn : 1 ≤ n) (hcnn : 0 ≤ c)
    (hb : ∀ j, env.toastFails j = false) :
    (∀ j0 : Nat, j0 < n.toNat → (∀ d, d < j0 → env.probes d = ProbeRes.unreachable) →
      env.probes j0 = ProbeRes.reachable →
      (main cfg env).2 = none ∧ countB isResync (main cfg env).1 = 1 ∧
      countB isProbe (main cfg env).1 = j0 + 1) ∧
    ((∀ j, j < n.toNat → env.probes j = ProbeRes.unreachable) →
      (main cfg env).2 = none ∧ countB isResync (main cfg env).1 = 0 ∧
      countB isProbe (main cfg env).1 = n.toNat) := by
  have hmain := main_eq cfg env n c hm hc hb
  constructor
  · intro j0 hj0 hfirst hre
    have hloop := mainLoop_reach cfg env c n hb hcnn j0 n.toNat 0 (autostartStep cfg env).2.1
      hj0 (by push_cast; omega) (fun d hd => by simpa using hfirst d hd) (by simpa using hre)
    have h1 : (main cfg env).1 =
        (autostartStep cfg env).1 ++
          (unreachTrail c n 0 j0 ++ MEvent.probe true :: MEvent.resyncAttempt ::
            (resyncBlock cfg env ((autostartStep cfg env).2.1 + j0)).1) := by
      rw [hmain, hloop]
    refine ⟨by rw [hmain, hloop], ?_, ?_⟩
    · rw [h1]
      simp only [countB_append, countB]
      rw [countB_autostart_zero cfg env _ (fun e he => ((isAutoEv_not_loop e he).2.1)),
        unreachTrail_count c n isResync (fun t s => rfl) j0 0,
        countB_resyncBlock_zero cfg env _ _ (fun e he => ((isExecEv_not_loop e he).2.1))]
      simp [isResync]
    · rw [h1]
      simp only [countB_append, countB]
      rw [countB_autostart_zero cfg env _ (fun e he => ((isAutoEv_not_loop e he).1)),
        unreachTrail_count c n isProbe (fun t s => rfl) j0 0,
        countB_resyncBlock_zero cfg env _ _ (fun e he => ((isExecEv_not_loop e he).1))]
      simp [isProbe]
  · intro hall
    have hloop := mainLoop_noreach cfg env c n hb hcnn n.toNat 0 (autostartStep cfg env).2.1
      (by omega) (by push_cast; omega) (fun d hd => by simpa using hall d hd)
    have h1 : (main cfg env).1 =
        (autostartStep cfg env).1 ++
          (unreachTrail c n 0 (n.toNat - 1) ++
            [MEvent.probe false, MEvent.notifyCall "Failure" "Time check failed."]) := by
      rw [hmain, hloop]
    refine ⟨by rw [hmain, hloop], ?_, ?_⟩
    · rw [h1]
      simp only [countB_append, countB]
      rw [countB_autostart_zero cfg env _ (fun e he => ((isAutoEv_not_loop e he).2.1)),
        unreachTrail_count c n isResync (fun t s => rfl) (n.toNat - 1) 0]
      simp [isResync]
    · rw [h1]
      simp only [countB_append, countB]
      rw [countB_autostart_zero cfg env _ (fun e he => ((isAutoEv_not_loop e he).1)),
        unreachTrail_count c n isProbe (fun t s => rfl) (n.toNat - 1) 0]
      simp [isProbe]
      omega

theorem claim1_witness :
    ((main ([] : Config) envReach).2 = none ∧
     countB isResync (main ([] : Config) envReach).1 = 1 ∧
     countB isProbe (main ([] : Config) envReach).1 = 0 + 1) ∧
    ((main ([] : Config) envBase).2 = none ∧
     countB isResync (main ([] : Config) envBase).1 = 0 ∧
     countB isProbe (main ([] : Config) envBase).1 = (3 : Int).toNat) := by
  constructor
  · exact (claim1_retry_resync_counts [] envReach 3 1000 rfl rfl (by norm_num) (by norm_num)
      (fun _ => rfl)).1 0 (by norm_num) (fun d hd => absurd hd (by omega)) rfl
  · exact (claim1_retry_resync_counts [] envBase 3 1000 rfl rfl (by norm_num) (by norm_num)
      (fun _ => rfl)).2 (fun _ _ => rfl)

/-- C2 counterexample: with max_check_times configured as a non-numeric
string, the int() conversion at the top of main raises an uncaught
ValueError that escapes the run (nothing around lines 240-241 catches it),
refuting the claim that no failure propagates to the process boundary. -/
theorem claim2_cex_uncaught :
    (main cfgBadInt envBase).2 = some "ValueError: invalid literal for int: soon" := rfl

/-- C2 amended: failures of external commands inside the run are caught and
converted (registrar failures to (ok, message) pairs, resync failures to
failure notifications) so that, whenever max_check_times and check_interval
are integers with check_interval non-negative, every probe outcome is in
the handled request-error class, and the notifier itself never raises, no
fault escapes main; an unparseable loop option, a negative check_interval
(the unprotected retry time.sleep raises ValueError), a probe exception
outside the request-error class, or a failing toast does escape. -/
theorem claim2_amended_caught (cfg : Config) (env : MainEnv) (n c : Int)
    (hm : get_config_var cfg "max_check_times" (ConfigVal.i 3) = ConfigVal.i n)
    (hc : get_config_var cfg "check_interval" (ConfigVal.i 1000) = ConfigVal.i c)
    (hcnn : 0 ≤ c)
    (hb : ∀ j, env.toastFails j = false)
    (herr : ∀ j s, env.probes j ≠ ProbeRes.err s) :
    (main cfg env).2 = none := by
  have hmain := main_eq cfg env n c hm hc hb
  rcases Nat.eq_zero_or_pos n.toNat with h0 | hpos
  · rw [hmain, h0]
    rfl
  · by_cases hex : ∃ j, j < n.toNat ∧ env.probes j = ProbeRes.reachable
    · obtain ⟨jw, hjw, hrw⟩ := hex
      have hexP : ∃ j, env.probes j = ProbeRes.reachable := ⟨jw, hrw⟩
      have hj0r : env.probes (Nat.find hexP) = ProbeRes.reachable := Nat.find_spec hexP
      have hj0le : Nat.find hexP ≤ jw := Nat.find_min' hexP hrw
      have hfirst : ∀ d, d < Nat.find hexP → env.probes d = ProbeRes.unreachable := by
        intro d hd
        have hnr := Nat.find_min hexP hd
        cases hp : env.probes d
        · exact absurd hp hnr
        · rfl
        · exact absurd hp (herr d _)
      have hloop := mainLoop_reach cfg env c n hb hcnn (Nat.find hexP) n.toNat 0
        (autostartStep cfg env).2.1 (by omega) (by push_cast; omega)
        (fun d hd => by simpa using hfirst d hd) (by simpa using hj0r)
      rw [hmain, hloop]
    · push_neg at hex
      have hall : ∀ d, d < n.toNat → env.probes d = ProbeRes.unreachable := by
        intro d hd
        cases hp : env.probes d
        · exact absurd hp (hex d hd)
        · rfl
        · exact absurd hp (herr d _)
      have hloop := mainLoop_noreach cfg env c n hb hcnn n.toNat 0 (autostartStep cfg env).2.1
        (by omega) (by push_cast; omega) (fun d hd => by simpa using hall d hd)
      rw [hmain, hloop]

theorem claim2_witness : (main ([] : Config) envBase).2 = none :=
  claim2_amended_caught [] envBase 3 1000 rfl rfl (by norm_num) (fun _ => rfl)
    (fun _ _ h => ProbeRes.noConfusion h)

/-- C5: with the external-path option truthy and the configured path empty,
once the probes first report reachable the run emits the no-valid-path
failure notification, launches no process (no startfile event anywhere),
and ends right there: the notification is the last event of the whole
trace, so no further probe attempt occurs. The non-negative check_interval
hypothesis ensures the run survives its retry sleeps to reach that probe
at all (a negative interval kills the run at the first sleep, so no probe
ever returns Reachable and the claim is vacuous there). -/
theorem claim5_no_valid_path (cfg : Config) (env : MainEnv) (n c : Int) (u : String)
    (j0 : Nat)
    (hm : get_config_var cfg "max_check_times" (ConfigVal.i 3) = ConfigVal.i n)
    (hc : get_config_var cfg "check_interval" (ConfigVal.i 1000) = ConfigVal.i c)
    (hcnn : 0 ≤ c)
    (hb : ∀ j, env.toastFails j = false)
    (hlow : get_config_var cfg "Use_excternal_path" (ConfigVal.s "No") = ConfigVal.s u)
    (hyes : yesSet (pyLower u) = true)
    (hpath : pyFalsy (get_config_var cfg "Path" (ConfigVal.s "")) = true)
    (hj0 : j0 < n.toNat)
    (hfirst : ∀ d, d < j0 → env.probes d = ProbeRes.unreachable)
    (hre : env.probes j0 = ProbeRes.reachable) :
    main cfg env =
      ((autostartStep cfg env).1 ++ unreachTrail c n 0 j0 ++
        [MEvent.probe true, MEvent.resyncAttempt, MEvent.notifyCall "Failure" noPathMsg],
       none) ∧
    countB isStartfile (main cfg env).1 = 0 := by
  have hmain := main_eq cfg env n c hm hc hb
  have hloop := mainLoop_reach cfg env c n hb hcnn j0 n.toNat 0 (autostartStep cfg env).2.1
    hj0 (by push_cast; omega) (fun d hd => by simpa using hfirst d hd) (by simpa using hre)
  rw [resyncBlock_nopath cfg env _ u hb hlow hyes hpath] at hloop
  have h1 : main cfg env =
      ((autostartStep cfg env).1 ++
        (unreachTrail c n 0 j0 ++
          [MEvent.probe true, MEvent.resyncAttempt, MEvent.notifyCall "Failure" noPathMsg]),
       none) := by
    rw [hmain, hloop]
  constructor
  · rw [h1]
    simp [List.append_assoc]
  · rw [h1]
    simp only [countB_append, countB]
    rw [countB_autostart_zero cfg env _ (fun e he => ((isAutoEv_not_loop e he).2.2.2)),
      unreachTrail_count c n isStartfile (fun t s => rfl) j0 0]
    simp [isStartfile]

theorem claim5_witness :
    main cfgExtNoPath envReach =
      ((autostartStep cfgExtNoPath envReach).1 ++ unreachTrail 1000 3 0 0 ++
        [MEvent.probe true, MEvent.resyncAttempt, MEvent.notifyCall "Failure" noPathMsg],
       none) ∧
    countB isStartfile (main cfgExtNoPath envReach).1 = 0 :=
  claim5_no_valid_path cfgExtNoPath envReach 3 1000 "Yes" 0 rfl rfl (by norm_num)
    (fun _ => rfl) rfl (by decide) rfl (by norm_num) (fun d hd => absurd hd (by omega)) rfl

/-- C7 counterexample: with max_check_times = 3, check_interval = -1 and
probes [Unreachable, Unreachable, Reachable], the run neither sleeps twice
nor resyncs once: the first retry time.sleep raises an uncaught
ValueError. -/
theorem claim7_cex_negative_interval :
    countB isSleepInterval (main cfgNegInterval envTwoFails).1 = 0 ∧
    countB isResync (main cfgNegInterval envTwoFails).1 = 0 ∧
    (main cfgNegInterval envTwoFails).2 =
      some "ValueError: sleep length must be non-negative" :=
  ⟨rfl, rfl, rfl⟩

/-- C7 amended: with max_check_times = 3, a non-negative check_interval (a
negative one makes the first retry time.sleep raise an uncaught ValueError
instead) and probes [unreachable, unreachable, reachable], the full trace
is the autostart part, then exactly attempt 1 with its retry notification
and check_interval sleep, attempt 2 likewise, then the reachable probe and
the resync attempt followed by the resync-step events; neither the
autostart part nor the resync step contains any check_interval sleep,
probe, or resync marker, so the run sleeps exactly twice and resyncs
exactly once, with no sleep after the reachable probe. -/
theorem claim7_three_attempt_trace (cfg : Config) (env : MainEnv) (c : Int)
    (hm : get_config_var cfg "max_check_times" (ConfigVal.i 3) = ConfigVal.i 3)
    (hc : get_config_var cfg "check_interval" (ConfigVal.i 1000) = ConfigVal.i c)
    (hcnn : 0 ≤ c)
    (hb : ∀ j, env.toastFails j = false)
    (h0 : env.probes 0 = ProbeRes.unreachable)
    (h1 : env.probes 1 = ProbeRes.unreachable)
    (h2 : env.probes 2 = ProbeRes.reachable) :
    main cfg env =
      ((autostartStep cfg env).1 ++
        [MEvent.probe false,
         MEvent.notifyCall "Failure" "Network connection failed. Remain attempts: 2",
         MEvent.sleepInterval c,
         MEvent.probe false,
         MEvent.notifyCall "Failure" "Network connection failed. Remain attempts: 1",
         MEvent.sleepInterval c,
         MEvent.probe true, MEvent.resyncAttempt] ++
        (resyncBlock cfg env ((autostartStep cfg env).2.1 + 2)).1,
       none) ∧
    countB isSleepInterval (autostartStep cfg env).1 = 0 ∧
    countB isSleepInterval (resyncBlock cfg env ((autostartStep cfg env).2.1 + 2)).1 = 0 ∧
    countB isProbe (autostartStep cfg env).1 = 0 ∧
    countB isProbe (resyncBlock cfg env ((autostartStep cfg env).2.1 + 2)).1 = 0 ∧
    countB isResync (autostartStep cfg env).1 = 0 ∧
    countB isResync (resyncBlock cfg env ((autostartStep cfg env).2.1 + 2)).1 = 0 := by
  have hmain := main_eq cfg env 3 c hm hc hb
  rw [show (3 : Int).toNat = 3 from rfl] at hmain
  have hloop := mainLoop_reach cfg env c 3 hb hcnn 2 3 0 (autostartStep cfg env).2.1
    (by omega) (by norm_num)
    (fun d hd => by
      have : d = 0 ∨ d = 1 := by omega
      rcases this with rfl | rfl
      · simpa using h0
      · simpa using h1)
    (by simpa using h2)
  have htrail : unreachTrail c 3 0 2 =
      [MEvent.probe false,
       MEvent.notifyCall "Failure" "Network connection failed. Remain attempts: 2",
       MEvent.sleepInterval c,
       MEvent.probe false,
       MEvent.notifyCall "Failure" "Network connection failed. Remain attempts: 1",
       MEvent.sleepInterval c] := by
    have hmsg2 : remainMsg 3 0 = "Network connection failed. Remain attempts: 2" := rfl
    have hmsg1 : remainMsg 3 1 = "Network connection failed. Remain attempts: 1" := rfl
    simp [unreachTrail, unreachEv, hmsg2, hmsg1]
  rw [htrail] at hloop
  refine ⟨?_, ?_, ?_, ?_, ?_, ?_, ?_⟩
  · rw [hmain, hloop]
    simp
  · exact countB_autostart_zero cfg env _ (fun e he => ((isAutoEv_not_loop e he).2.2.1))
  · exact countB_resyncBlock_zero cfg env _ _ (fun e he => ((isExecEv_not_loop e he).2.2))
  · exact countB_autostart_zero cfg env _ (fun e he => ((isAutoEv_not_loop e he).1))
  · exact countB_resyncBlock_zero cfg env _ _ (fun e he => ((isExecEv_not_loop e he).1))
  · exact countB_autostart_zero cfg env _ (fun e he => ((isAutoEv_not_loop e he).2.1))
  · exact countB_resyncBlock_zero cfg env _ _ (fun e he => ((isExecEv_not_loop e he).2.1))

theorem claim7_witness :
    main ([] : Config) envTwoFails =
      ((autostartStep ([] : Config) envTwoFails).1 ++
        [MEvent.probe false,
         MEvent.notifyCall "Failure" "Network connection failed. Remain attempts: 2",
         MEvent.sleepInterval 1000,
         MEvent.probe false,
         MEvent.notifyCall "Failure" "Network connection failed. Remain attempts: 1",
         MEvent.sleepInterval 1000,
         MEvent.probe true, MEvent.resyncAttempt] ++
        (resyncBlock ([] : Config) envTwoFails
          ((autostartStep ([] : Config) envTwoFails).2.1 + 2)).1,
       none) ∧
    countB isSleepInterval (autostartStep ([] : Config) envTwoFails).1 = 0 ∧
    countB isSleepInterval (resyncBlock ([] : Config) envTwoFails
      ((autostartStep ([] : Config) envTwoFails).2.1 + 2)).1 = 0 ∧
    countB isProbe (autostartStep ([] : Config) envTwoFails).1 = 0 ∧
    countB isProbe (resyncBlock ([] : Config) envTwoFails
      ((autostartStep ([] : Config) envTwoFails).2.1 + 2)).1 = 0 ∧
    countB isResync (autostartStep ([] : Config) envTwoFails).1 = 0 ∧
    countB isResync (resyncBlock ([] : Config) envTwoFails
      ((autostartStep ([] : Config) envTwoFails).2.1 + 2)).1 = 0 :=
  claim7_three_attempt_trace [] envTwoFails 1000 rfl rfl (by norm_num) (fun _ => rfl)
    rfl rfl rfl

/-- C8: in the built-in resync path (external-path option falsy), when the
first service status query already reports RUNNING, the resync step issues
no service-start command and no polling sleep: the query is immediately
followed by the w32tm resync command, and everything after it is
notification calls only. -/
theorem claim8_running_no_start (cfg : Config) (env : MainEnv) (k : Nat) (u : String)
    (hlow : get_config_var cfg "Use_excternal_path" (ConfigVal.s "No") = ConfigVal.s u)
    (hno : yesSet (pyLower u) = false)
    (hrun : hasSubstr ((env.scQuery 0).stdout ++ (env.scQuery 0).stderr) "RUNNING" = true) :
    ∃ tail, (resyncBlock cfg env k).1 = MEvent.scQueryCmd :: MEvent.w32tmCmd :: tail ∧
      ∀ e ∈ tail, isNotifyCall e = true :=
  resyncBlock_running cfg env k u hlow hno hrun

theorem claim8_witness :
    ∃ tail, (resyncBlock ([] : Config) envRunning 0).1 =
      MEvent.scQueryCmd :: MEvent.w32tmCmd :: tail ∧
      ∀ e ∈ tail, isNotifyCall e = true :=
  claim8_running_no_start [] envRunning 0 "No" rfl (by decide) (by decide)

/-- C10: with max_check_times ≤ 0 the retry loop body never runs: the trace
is exactly the autostart part (one reconciliation, no probe, no resync
marker, no retry sleep, and every notification an autostart one), and the
run terminates normally. -/
theorem claim10_nonpositive_loop (cfg : Config) (env : MainEnv) (n c : Int)
    (hm : get_config_var cfg "max_check_times" (ConfigVal.i 3) = ConfigVal.i n)
    (hc : get_config_var cfg "check_interval" (ConfigVal.i 1000) = ConfigVal.i c)
    (hn : n ≤ 0)
    (hb : ∀ j, env.toastFails j = false) :
    main cfg env = ((autostartStep cfg env).1, none) ∧
    countB isEnsure (main cfg env).1 = 1 ∧
    countB isProbe (main cfg env).1 = 0 ∧
    countB isResync (main cfg env).1 = 0 ∧
    countB isSleepInterval (main cfg env).1 = 0 ∧
    (∀ t s, MEvent.notifyCall t s ∈ (main cfg env).1 →
      t = "Autostart Failed" ∨ t = "Autostart Cleanup Failed") := by
  have hmain := main_eq cfg env n c hm hc hb
  have ht : n.toNat = 0 := by omega
  rw [ht] at hmain
  have h1 : main cfg env = ((autostartStep cfg env).1, none) := by
    rw [hmain]
    simp [mainLoop]
  refine ⟨h1, ?_, ?_, ?_, ?_, ?_⟩
  · rw [h1]
    exact autostart_ensure_once cfg env
  · rw [h1]
    exact countB_autostart_zero cfg env _ (fun e he => ((isAutoEv_not_loop e he).1))
  · rw [h1]
    exact countB_autostart_zero cfg env _ (fun e he => ((isAutoEv_not_loop e he).2.1))
  · rw [h1]
    exact countB_autostart_zero cfg env _ (fun e he => ((isAutoEv_not_loop e he).2.2.1))
  · rw [h1]
    exact autostart_notify_titles cfg env

theorem claim10_witness :
    main cfgZeroTimes envBase = ((autostartStep cfgZeroTimes envBase).1, none) ∧
    countB isEnsure (main cfgZeroTimes envBase).1 = 1 ∧
    countB isProbe (main cfgZeroTimes envBase).1 = 0 ∧
    countB isResync (main cfgZeroTimes envBase).1 = 0 ∧
    countB isSleepInterval (main cfgZeroTimes envBase).1 = 0 ∧
    (∀ t s, MEvent.notifyCall t s ∈ (main cfgZeroTimes envBase).1 →
      t = "Autostart Failed" ∨ t = "Autostart Cleanup Failed") :=
  claim10_nonpositive_loop cfgZeroTimes envBase 0 1000 rfl rfl (by norm_num) (fun _ => rfl)

end TimeChecker
